import Mathlib

/-!
Verification of the TDS provenance/graph-consistency layer
(`tds/db/graph.py`, `ProvenanceHandler`) and the project-asset
aggregation layer (`tds/routers/projects.py`) against the repository's
specification.

The Python code is shallowly embedded: the relational store and the
graph store are explicit state records; each handler method becomes a
pure function from states (plus arguments) to states plus an outcome.
A raised Python exception is an `Except.error` outcome.
-/

namespace TDS

/-- Resource type tags (`ResourceType` enum, enumerated in
`tds/routers/projects.py` lines 34-52 and 255-263). -/
inductive ResourceType where
  | datasets
  | models
  | model_configurations
  | publications
  | simulations
  | workflows
  | artifacts
  deriving DecidableEq, Repr

/-- Relation type tags (`RelationType` enum, `src/generated/orm.py` lines 103-108). -/
inductive RelationType where
  | copies
  | derives
  | glued
  | parents
  deriving DecidableEq, Repr

/-- A graph-store node: identity key is `(label = resource_type, property id = resource_id)`
(spec §3; `create_node_relationship` merges on `(label, id)`). -/
structure Node where
  label : ResourceType
  nid : Int
  deriving DecidableEq, Repr

/-- A graph-store directed relationship, labeled by the relation type and
carrying `user_id` as an edge property (`create_node_relationship`, step 3). -/
structure GraphEdge where
  src : Node
  dst : Node
  relType : RelationType
  userId : Int
  deriving DecidableEq, Repr

/-- The graph-store contents: node set and edge set, represented as lists. -/
structure GraphState where
  nodes : List Node
  edges : List GraphEdge
  deriving DecidableEq, Repr

/-- One `relation` table row (`orm.Provenance`): surrogate id plus the
edge payload (`src/generated/orm.py` `Relation`, graph.py `create`). -/
structure RelationRow where
  rid : Nat
  left : Int
  left_type : ResourceType
  right : Int
  right_type : ResourceType
  relation_type : RelationType
  user_id : Int
  deriving DecidableEq, Repr

/-- The relational store's `relation` table together with the sequence
counter that assigns surrogate ids on insert. -/
structure RelationalState where
  rows : List RelationRow
  nextId : Nat
  deriving DecidableEq, Repr

/-- Errors a handler call can raise: `Exception("Invalid object in relation")`
in `create`, or the graph-store driver failing because the store is
unreachable. -/
inductive StoreError where
  | invalidRelation
  | graphUnavailable
  deriving DecidableEq, Repr

/-- Cypher `MERGE` semantics: create the entity only if it is absent
(spec §3 "merge semantics: create-if-absent"). -/
def mergeInto {α : Type} [DecidableEq α] (x : α) (l : List α) : List α :=
  if x ∈ l then l else l ++ [x]

/-- The graph node a payload's left endpoint merges to. -/
def leftNode (r : RelationRow) : Node := ⟨r.left_type, r.left⟩

/-- The graph node a payload's right endpoint merges to. -/
def rightNode (r : RelationRow) : Node := ⟨r.right_type, r.right⟩

/-- The graph edge a payload merges to (step 3 of the mirror protocol). -/
def edgeOf (r : RelationRow) : GraphEdge :=
  ⟨leftNode r, rightNode r, r.relation_type, r.user_id⟩

namespace ProvenanceHandler

/-- Model of `ProvenanceHandler.create_node_relationship` (graph.py lines 121-154):
merge the left node, merge the right node, then merge the directed
relationship between them. -/
def create_node_relationship (g : GraphState) (r : RelationRow) : GraphState :=
  let g1 : GraphState := { g with nodes := mergeInto (leftNode r) g.nodes }
  let g2 : GraphState := { g1 with nodes := mergeInto (rightNode r) g1.nodes }
  { g2 with edges := mergeInto (edgeOf r) g2.edges }

/-- Model of `ProvenanceHandler.delete_node_relationship` (graph.py lines 156-176):
match the two endpoint nodes and the relationship labeled by
`relation_type` with property `user_id`, and delete that relationship. -/
def delete_node_relationship (g : GraphState) (r : RelationRow) : GraphState :=
  { g with edges := g.edges.filter (fun e => e ≠ edgeOf r) }

/-- Model of `ProvenanceHandler.delete_nodes` (graph.py lines 178-182):
`match (n) where not (n)--() delete (n)` — delete every node with no
incident relationship (in either direction), then return `True`. -/
def delete_nodes (g : GraphState) : GraphState × Bool :=
  ({ g with
      nodes := g.nodes.filter
        (fun n => g.edges.any (fun e => e.src = n ∨ e.dst = n)) },
    true)

/-- Model of `ProvenanceHandler.create` (graph.py lines 30-63). Arguments mirror the
Python signature; `left_type`/`right_type` are `Option` because the body
guards on `is not None`. `gHealthy` models whether the graph store is
reachable: when it is not, the driver call inside
`create_node_relationship` raises and — there being no `try/except` in
`create` — the exception propagates, after the relational commit.
Returns the two stores and the call's outcome (assigned id or raised
error). -/
def create (rdb : RelationalState) (g : GraphState)
    (graph_cache_enabled : Bool) (gHealthy : Bool)
    (left : Int) (left_type : Option ResourceType)
    (right : Int) (right_type : Option ResourceType)
    (relation_type : RelationType) (user_id : Int) :
    RelationalState × GraphState × Except StoreError Nat :=
  match left_type, right_type with
  | some lt, some rt =>
      let row : RelationRow :=
        ⟨rdb.nextId, left, lt, right, rt, relation_type, user_id⟩
      let rdb' : RelationalState :=
        { rows := rdb.rows ++ [row], nextId := rdb.nextId + 1 }
      if graph_cache_enabled then
        if gHealthy then
          (rdb', create_node_relationship g row, .ok row.rid)
        else
          (rdb', g, .error .graphUnavailable)
      else
        (rdb', g, .ok row.rid)
  | _, _ => (rdb, g, .error .invalidRelation)

/-- Model of `ProvenanceHandler.retrieve` (graph.py lines 65-76): count the rows
matching the id; if exactly one, return it decoded, else `None`. -/
def retrieve (rdb : RelationalState) (id : Nat) : Option RelationRow :=
  if (rdb.rows.filter (fun r => r.rid = id)).length = 1 then
    (rdb.rows.filter (fun r => r.rid = id)).head?
  else
    none

/-- Model of `ProvenanceHandler.delete` (graph.py lines 78-99): count the rows
matching the id; if exactly one, delete it, commit, replay the row's
payload against the graph mirror (when enabled), and return `True`;
otherwise return `False`. As in `create`, a graph-store failure raises
after the relational commit. -/
def delete (rdb : RelationalState) (g : GraphState)
    (graph_cache_enabled : Bool) (gHealthy : Bool) (id : Nat) :
    RelationalState × GraphState × Except StoreError Bool :=
  match (rdb.rows.filter (fun r => r.rid = id)).head? with
  | some row =>
      if (rdb.rows.filter (fun r => r.rid = id)).length = 1 then
        let rdb' : RelationalState :=
          { rdb with rows := rdb.rows.filter (fun r => r.rid ≠ id) }
        if graph_cache_enabled then
          if gHealthy then
            (rdb', delete_node_relationship g row, .ok true)
          else
            (rdb', g, .error .graphUnavailable)
        else
          (rdb', g, .ok true)
      else
        (rdb, g, .ok false)
  | none => (rdb, g, .ok false)

end ProvenanceHandler

/-! ## Projects router (`tds/routers/projects.py`) -/

/-- A `project` table row. The ORM table declaration is not part of the
core (spec §1 treats ORM declarations as out-of-scope plumbing);
`deactivate_project` manipulates the row as a dict of all its columns,
so the row is modelled as its primary key, the `active` flag the
endpoint writes, and one opaque field standing for every other column. -/
structure ProjectRow where
  pid : Nat
  active : Bool
  otherFields : String
  deriving DecidableEq, Repr

/-- A `project_asset` table row: polymorphic pointer
`(project_id, resource_type, resource_id)` plus its surrogate key;
`resource_id` is stored as an untyped string (spec §3). -/
structure ProjectAssetRow where
  aid : Nat
  project_id : Nat
  resource_type : ResourceType
  resource_id : String
  deriving DecidableEq, Repr

/-- The relational state the projects router operates on. -/
structure ProjectsState where
  projects : List ProjectRow
  assets : List ProjectAssetRow
  nextAssetId : Nat
  deriving DecidableEq, Repr

/-- Router outcomes surfaced to the caller other than a successful
response: an explicit `404 Not Found`, or an unhandled Python
`AttributeError` (surfaced as an HTTP 500): `create_asset`'s duplicate
branch executes `return Response(status.HTTP_409_CONFLICT)`, passing
`409` as the *content* positional of the response constructor, whose
`render` calls `(409).encode("utf-8")` on the integer and raises. -/
inductive ApiError where
  | notFound
  | attributeError
  deriving DecidableEq, Repr

/-- The `resource_id` path parameter, typed `int | str` in the Python
signatures of `create_asset` and `delete_asset`. -/
inductive PathId where
  | int (n : Int)
  | str (s : String)
  deriving DecidableEq, Repr

/-- Python's `str(resource_id)` coercion applied by both asset endpoints. -/
def PathId.toStr : PathId → String
  | .int n => toString n
  | .str s => s

/-- Model of `create_asset` (projects.py lines 210-248): count existing rows with
the same `(project_id, str(resource_id), resource_type)` triple; insert
and return `201` with the new surrogate id only when the count is zero.
In the duplicate branch the source executes
`return Response(status.HTTP_409_CONFLICT)`: `409` lands in the
*content* positional of the response constructor, whose `render` calls
`(409).encode("utf-8")` and raises `AttributeError` — the duplicate
path raises (an HTTP 500) instead of reporting a 409, inserting
nothing. -/
def create_asset (st : ProjectsState) (project_id : Nat)
    (resource_type : ResourceType) (resource_id : PathId) :
    ProjectsState × Except ApiError Nat :=
  let identical_count :=
    (st.assets.filter (fun a =>
      a.project_id = project_id ∧ a.resource_id = resource_id.toStr ∧
        a.resource_type = resource_type)).length
  if identical_count = 0 then
    let row : ProjectAssetRow :=
      ⟨st.nextAssetId, project_id, resource_type, resource_id.toStr⟩
    ({ st with assets := st.assets ++ [row], nextAssetId := st.nextAssetId + 1 },
      .ok row.aid)
  else
    (st, .error .attributeError)

/-- Model of `delete_asset` (projects.py lines 180-203): list the rows matching
`(project_id, resource_type, str(resource_id))`; `404` if none, else
delete the first matching row and return `204`. -/
def delete_asset (st : ProjectsState) (project_id : Nat)
    (resource_type : ResourceType) (resource_id : PathId) :
    ProjectsState × Except ApiError Unit :=
  let project_assets :=
    st.assets.filter (fun a =>
      a.project_id = project_id ∧ a.resource_type = resource_type ∧
        a.resource_id = resource_id.toStr)
  match project_assets.head? with
  | none => (st, .error .notFound)
  | some first => ({ st with assets := st.assets.erase first }, .ok ())

/-- Model of `deactivate_project` (projects.py lines 82-106): if the project
exists, read the whole row, set `active` to `False` in its dict, and
update every column of the row (the others back to their current
values); reply with `{"id": id, "status": False}`. `404` otherwise. -/
def deactivate_project (st : ProjectsState) (id : Nat) :
    ProjectsState × Except ApiError (Nat × Bool) :=
  match (st.projects.filter (fun p => p.pid = id)).head? with
  | some project =>
      let project' : ProjectRow := { project with active := false }
      ({ st with
          projects := st.projects.map (fun q => if q.pid = id then project' else q) },
        .ok (id, project'.active))
  | none => (st, .error .notFound)

/-- A search-index document: its `_id` and an opaque body. -/
structure EsDoc where
  docId : String
  body : String
  deriving DecidableEq, Repr

/-- A row of a relationally-stored resource table, keyed by its id
(compared against the stringly-typed asset `resource_id`). -/
structure ResourceRow where
  resId : String
  body : String
  deriving DecidableEq, Repr

/-- The resource types resolved through the search index
(`es_resources`, projects.py lines 45-52); every other type
(publications) resolves through its relational table. -/
def es_resources : List ResourceType :=
  [.datasets, .models, .model_configurations, .simulations, .workflows,
    .artifacts]

/-- A shaped resource representation in the aggregation result.
Modelled from the spec: the per-type response shapers
(`tds/modules/*/response.py`, not under the core sources) project each
index hit into a wire representation one-for-one; relational rows go
through their schema's object-mapping constructor one-for-one. -/
inductive AssetRepr where
  | fromIndex (doc : EsDoc)
  | fromTable (row : ResourceRow)
  deriving DecidableEq, Repr

/-- The resource id carried by a shaped representation. -/
def AssetRepr.resourceId : AssetRepr → String
  | .fromIndex d => d.docId
  | .fromTable r => r.resId

/-- The backing stores the aggregator dispatches to: per resource type,
a search-index collection and a relational table. -/
structure ResourceStores where
  es : ResourceType → List EsDoc
  table : ResourceType → List ResourceRow

/-- The ids referenced by project `id`'s assets of type `t`, in asset-row
order (the per-type grouping loop of `get_project_assets`). -/
def projectRefIds (st : ProjectsState) (id : Nat) (t : ResourceType) :
    List String :=
  ((st.assets.filter (fun a => a.project_id = id)).filter
      (fun a => a.resource_type = t)).map (fun a => a.resource_id)

/-- Model of `get_project_assets` (projects.py lines 251-308): `404` unless the
project exists; otherwise group the project's asset `resource_id`s by
requested type (a type requested twice collapses to one dict key in
Python, so the requested list is taken duplicate-free), then resolve
each type either via a multi-id search-index lookup (with the
zero-total-hits short cut substituting an empty list) or via a single
`IN`-filtered relational query, shaping each hit/row. The per-type
resolution step (the body of the `for key in assets_key_ids` loop) is
factored out as `resolveType`. -/
def resolveType (st : ProjectsState) (stores : ResourceStores) (id : Nat)
    (t : ResourceType) : List AssetRepr :=
  if t ∈ es_resources then
    let hits :=
      (stores.es t).filter (fun d => d.docId ∈ projectRefIds st id t)
    if hits.length = 0 then [] else hits.map .fromIndex
  else
    ((stores.table t).filter
      (fun r => r.resId ∈ projectRefIds st id t)).map .fromTable

def get_project_assets (st : ProjectsState) (stores : ResourceStores)
    (id : Nat) (types : List ResourceType) :
    Except ApiError (List (ResourceType × List AssetRepr)) :=
  if st.projects.any (fun p => p.pid = id) then
    .ok (types.map (fun t => (t, resolveType st stores id t)))
  else
    .error .notFound

/-- Demo fixture for the aggregation property: one project (id 5) with
two dataset references and one publication reference, plus a foreign
project's reference. -/
def projDemoState : ProjectsState :=
  ⟨[⟨5, true, "p"⟩],
    [⟨0, 5, .datasets, "d1"⟩, ⟨1, 5, .datasets, "d2"⟩,
      ⟨2, 5, .publications, "p1"⟩, ⟨3, 6, .datasets, "x"⟩], 4⟩

/-- Demo backing stores: a dataset search-index collection holding the
two referenced documents plus an unrelated one, and a publication table
holding the referenced row. -/
def projDemoStores : ResourceStores :=
  ⟨fun t => if t = .datasets then [⟨"d1", "D1"⟩, ⟨"d2", "D2"⟩, ⟨"zz", "Z"⟩]
    else [],
    fun t => if t = .publications then [⟨"p1", "P"⟩] else []⟩

/-- Well-formedness of the relational `relation` table: every stored
surrogate id is below the sequence counter, so the next assigned id is
fresh. Holds for every state reachable from an empty store. -/
def RelationalState.fresh (rdb : RelationalState) : Prop :=
  ∀ q ∈ rdb.rows, q.rid < rdb.nextId

instance (rdb : RelationalState) : Decidable rdb.fresh :=
  List.decidableBAll _ rdb.rows

/-- Uniqueness invariant on project-asset rows (spec §3): at most one
row per `(project_id, resource_type, resource_id)` triple. -/
def assetTriplesUnique (st : ProjectsState) : Prop :=
  st.assets.Pairwise (fun a b =>
    ¬(a.project_id = b.project_id ∧ a.resource_type = b.resource_type ∧
      a.resource_id = b.resource_id))

instance (st : ProjectsState) : Decidable (assetTriplesUnique st) := by
  unfold assetTriplesUnique
  exact List.instDecidablePairwise st.assets

/-! ## Helper lemmas -/

theorem mem_mergeInto_self {α : Type} [DecidableEq α] (x : α) (l : List α) :
    x ∈ mergeInto x l := by
  unfold mergeInto
  split
  · assumption
  · simp

theorem mem_mergeInto_of_mem {α : Type} [DecidableEq α] {y : α} (x : α)
    {l : List α} (h : y ∈ l) : y ∈ mergeInto x l := by
  unfold mergeInto
  split
  · exact h
  · simp [h]

theorem mergeInto_of_mem {α : Type} [DecidableEq α] {x : α} {l : List α}
    (h : x ∈ l) : mergeInto x l = l := by
  unfold mergeInto
  simp [h]

theorem mergeInto_nodup {α : Type} [DecidableEq α] (x : α) {l : List α}
    (h : l.Nodup) : (mergeInto x l).Nodup := by
  unfold mergeInto
  split
  · exact h
  · rename_i hx
    simp [List.nodup_append, h, hx]

theorem filter_rid_eq_nil {rows : List RelationRow} {n : Nat}
    (h : ∀ q ∈ rows, q.rid < n) :
    rows.filter (fun q => q.rid = n) = [] := by
  rw [List.filter_eq_nil_iff]
  intro q hq
  simp only [decide_eq_true_eq]
  exact Nat.ne_of_lt (h q hq)

theorem filter_rid_append {rows : List RelationRow} {n : Nat}
    (h : ∀ q ∈ rows, q.rid < n) (row : RelationRow) (hrow : row.rid = n) :
    (rows ++ [row]).filter (fun q => q.rid = n) = [row] := by
  rw [List.filter_append, filter_rid_eq_nil h]
  simp [hrow]

theorem filter_rid_ne_append {rows : List RelationRow} {n : Nat}
    (h : ∀ q ∈ rows, q.rid < n) (row : RelationRow) (hrow : row.rid = n) :
    (rows ++ [row]).filter (fun q => q.rid ≠ n) = rows := by
  rw [List.filter_append]
  have h1 : rows.filter (fun q => q.rid ≠ n) = rows := by
    rw [List.filter_eq_self]
    intro q hq
    simp only [decide_eq_true_eq]
    exact Nat.ne_of_lt (h q hq)
  rw [h1]
  simp [hrow]

/-! ## Claims about the Provenance Coordinator -/

/-- C3: the three-step mirror protocol (merge left node, merge right
node, merge directed edge) is idempotent: running it twice from any
starting graph state equals running it once, and — each step being
create-if-absent — it never introduces duplicate nodes or edges. -/
theorem mirror_replay_idempotent (g : GraphState) (r : RelationRow) :
    ProvenanceHandler.create_node_relationship
        (ProvenanceHandler.create_node_relationship g r) r
      = ProvenanceHandler.create_node_relationship g r
    ∧ (g.nodes.Nodup →
        (ProvenanceHandler.create_node_relationship g r).nodes.Nodup)
    ∧ (g.edges.Nodup →
        (ProvenanceHandler.create_node_relationship g r).edges.Nodup) := by
  unfold ProvenanceHandler.create_node_relationship
  refine ⟨?_, fun h => ?_, fun h => ?_⟩
  · have h1 : mergeInto (leftNode r)
        (mergeInto (rightNode r) (mergeInto (leftNode r) g.nodes))
        = mergeInto (rightNode r) (mergeInto (leftNode r) g.nodes) :=
      mergeInto_of_mem (mem_mergeInto_of_mem _ (mem_mergeInto_self _ _))
    have h2 : mergeInto (rightNode r)
        (mergeInto (rightNode r) (mergeInto (leftNode r) g.nodes))
        = mergeInto (rightNode r) (mergeInto (leftNode r) g.nodes) :=
      mergeInto_of_mem (mem_mergeInto_self _ _)
    have h3 : mergeInto (edgeOf r) (mergeInto (edgeOf r) g.edges)
        = mergeInto (edgeOf r) g.edges :=
      mergeInto_of_mem (mem_mergeInto_self _ _)
    simp only [h1, h2, h3]
  · exact mergeInto_nodup _ (mergeInto_nodup _ h)
  · exact mergeInto_nodup _ h

/-- C3 witness: the idempotence at a concrete graph state and payload. -/
theorem mirror_replay_idempotent_witness :
    ProvenanceHandler.create_node_relationship
        (ProvenanceHandler.create_node_relationship
          ⟨[⟨.models, 3⟩], []⟩ ⟨0, 10, .datasets, 20, .models, .derives, 1⟩)
        ⟨0, 10, .datasets, 20, .models, .derives, 1⟩
      = ProvenanceHandler.create_node_relationship
          ⟨[⟨.models, 3⟩], []⟩ ⟨0, 10, .datasets, 20, .models, .derives, 1⟩
    ∧ (ProvenanceHandler.create_node_relationship
        ⟨[⟨.models, 3⟩], []⟩
        ⟨0, 10, .datasets, 20, .models, .derives, 1⟩).nodes.Nodup := by
  have h := mirror_replay_idempotent ⟨[⟨.models, 3⟩], []⟩
    ⟨0, 10, .datasets, 20, .models, .derives, 1⟩
  exact ⟨h.1, h.2.1 (by decide)⟩

/-- C10: `delete_nodes` removes exactly the isolated nodes: every node
with an incident relationship survives, every surviving node had an
incident relationship, edges are untouched, and the call returns
`True`. -/
theorem delete_nodes_only_isolated (g : GraphState) :
    (ProvenanceHandler.delete_nodes g).2 = true
    ∧ (ProvenanceHandler.delete_nodes g).1.edges = g.edges
    ∧ (∀ n ∈ g.nodes, (∃ e ∈ g.edges, e.src = n ∨ e.dst = n) →
        n ∈ (ProvenanceHandler.delete_nodes g).1.nodes)
    ∧ (∀ n ∈ g.nodes, (∀ e ∈ g.edges, ¬(e.src = n ∨ e.dst = n)) →
        n ∉ (ProvenanceHandler.delete_nodes g).1.nodes)
    ∧ (∀ n, n ∈ (ProvenanceHandler.delete_nodes g).1.nodes →
        n ∈ g.nodes ∧ ∃ e ∈ g.edges, e.src = n ∨ e.dst = n) := by
  unfold ProvenanceHandler.delete_nodes
  refine ⟨rfl, rfl, ?_, ?_, ?_⟩
  · intro n hn he
    simp only [List.mem_filter, List.any_eq_true, decide_eq_true_eq]
    exact ⟨hn, he⟩
  · intro n _ he hmem
    simp only [List.mem_filter, List.any_eq_true, decide_eq_true_eq] at hmem
    obtain ⟨e, hmeme, hor⟩ := hmem.2
    exact he e hmeme hor
  · intro n hn
    simp only [List.mem_filter, List.any_eq_true, decide_eq_true_eq] at hn
    exact hn

/-- C10 witness: a graph with one connected and one isolated node. -/
theorem delete_nodes_only_isolated_witness :
    (ProvenanceHandler.delete_nodes
        ⟨[⟨.datasets, 1⟩, ⟨.models, 2⟩, ⟨.workflows, 9⟩],
          [⟨⟨.datasets, 1⟩, ⟨.models, 2⟩, .derives, 7⟩]⟩).2 = true
    ∧ (⟨.datasets, 1⟩ : Node) ∈ ((ProvenanceHandler.delete_nodes
        ⟨[⟨.datasets, 1⟩, ⟨.models, 2⟩, ⟨.workflows, 9⟩],
          [⟨⟨.datasets, 1⟩, ⟨.models, 2⟩, .derives, 7⟩]⟩).1).nodes
    ∧ (⟨.workflows, 9⟩ : Node) ∉ ((ProvenanceHandler.delete_nodes
        ⟨[⟨.datasets, 1⟩, ⟨.models, 2⟩, ⟨.workflows, 9⟩],
          [⟨⟨.datasets, 1⟩, ⟨.models, 2⟩, .derives, 7⟩]⟩).1).nodes := by
  have h := delete_nodes_only_isolated
    ⟨[⟨.datasets, 1⟩, ⟨.models, 2⟩, ⟨.workflows, 9⟩],
      [⟨⟨.datasets, 1⟩, ⟨.models, 2⟩, .derives, 7⟩]⟩
  refine ⟨h.1, ?_, ?_⟩
  · exact h.2.2.1 ⟨.datasets, 1⟩ (by decide)
      ⟨⟨⟨.datasets, 1⟩, ⟨.models, 2⟩, .derives, 7⟩, by decide, by decide⟩
  · exact h.2.2.2.1 ⟨.workflows, 9⟩ (by decide) (by decide)

/-- C6: for an id matching no relation row, `retrieve` returns `None`
and `delete` returns `False`; neither raises, and both stores are left
unchanged. -/
theorem unknown_id_safe (rdb : RelationalState) (g : GraphState)
    (enabled healthy : Bool) (id : Nat)
    (h : ∀ q ∈ rdb.rows, q.rid ≠ id) :
    ProvenanceHandler.retrieve rdb id = none
    ∧ ProvenanceHandler.delete rdb g enabled healthy id
        = (rdb, g, .ok false) := by
  have hfil : rdb.rows.filter (fun q => q.rid = id) = [] := by
    rw [List.filter_eq_nil_iff]
    intro q hq
    simp only [decide_eq_true_eq]
    exact h q hq
  constructor
  · unfold ProvenanceHandler.retrieve
    rw [hfil]
    simp
  · unfold ProvenanceHandler.delete
    rw [hfil]
    simp

/-- C6 witness: unknown id 7 against a store holding only id 0. -/
theorem unknown_id_safe_witness :
    ProvenanceHandler.retrieve
        ⟨[⟨0, 1, .datasets, 2, .models, .derives, 3⟩], 1⟩ 7 = none
    ∧ ProvenanceHandler.delete
        ⟨[⟨0, 1, .datasets, 2, .models, .derives, 3⟩], 1⟩ ⟨[], []⟩
        true false 7
      = (⟨[⟨0, 1, .datasets, 2, .models, .derives, 3⟩], 1⟩, ⟨[], []⟩,
          .ok false) :=
  unknown_id_safe ⟨[⟨0, 1, .datasets, 2, .models, .derives, 3⟩], 1⟩
    ⟨[], []⟩ true false 7 (by decide)

/-- C5 counterexample: with both endpoint types non-null but the graph
store unreachable (mirroring enabled), `create` does not return the
assigned id — the mirror failure propagates instead. -/
theorem create_precondition_cex :
    (ProvenanceHandler.create ⟨[], 0⟩ ⟨[], []⟩ true false 5 (some .models) 6
        (some .datasets) .copies 2).2.2 = .error .graphUnavailable := rfl

/-- C5 amended: `create` raises the invalid-relation error iff
`left_type` or `right_type` is null, and then before any store access,
leaving both stores unchanged; when both types are non-null it inserts
exactly one relation row, and it returns the store-assigned id provided
mirroring is disabled or the graph write succeeds (a graph failure
still inserts the row but propagates instead of returning). -/
theorem create_precondition_amended (rdb : RelationalState) (g : GraphState)
    (enabled healthy : Bool) (left right : Int)
    (lt rt : Option ResourceType) (rel : RelationType) (uid : Int) :
    ((ProvenanceHandler.create rdb g enabled healthy left lt right rt rel
        uid).2.2 = .error .invalidRelation ↔ lt = none ∨ rt = none)
    ∧ ((lt = none ∨ rt = none) →
        ProvenanceHandler.create rdb g enabled healthy left lt right rt rel uid
          = (rdb, g, .error .invalidRelation))
    ∧ (∀ l r, lt = some l → rt = some r →
        (ProvenanceHandler.create rdb g enabled healthy left lt right rt rel
            uid).1.rows
          = rdb.rows ++ [⟨rdb.nextId, left, l, right, r, rel, uid⟩]
        ∧ ((enabled = false ∨ healthy = true) →
            (ProvenanceHandler.create rdb g enabled healthy left lt right rt
                rel uid).2.2 = .ok rdb.nextId)) := by
  cases lt <;> cases rt <;> cases enabled <;> cases healthy <;>
    simp [ProvenanceHandler.create]

/-- C5 witness: the amended statement at a concrete input (types
non-null, mirroring disabled). -/
theorem create_precondition_witness :
    ((ProvenanceHandler.create ⟨[], 0⟩ ⟨[], []⟩ false false 5 (some .models) 6
        (some .datasets) .copies 2).2.2 = .error .invalidRelation
      ↔ (some ResourceType.models = none ∨ some ResourceType.datasets = none))
    ∧ ((some ResourceType.models = none ∨ some ResourceType.datasets = none) →
        ProvenanceHandler.create ⟨[], 0⟩ ⟨[], []⟩ false false 5 (some .models)
            6 (some .datasets) .copies 2
          = (⟨[], 0⟩, ⟨[], []⟩, .error .invalidRelation))
    ∧ (∀ l r, some ResourceType.models = some l →
        some ResourceType.datasets = some r →
        (ProvenanceHandler.create ⟨[], 0⟩ ⟨[], []⟩ false false 5 (some .models)
            6 (some .datasets) .copies 2).1.rows
          = [] ++ [⟨0, 5, l, 6, r, .copies, 2⟩]
        ∧ ((false = false ∨ false = true) →
            (ProvenanceHandler.create ⟨[], 0⟩ ⟨[], []⟩ false false 5
                (some .models) 6 (some .datasets) .copies 2).2.2 = .ok 0)) :=
  create_precondition_amended ⟨[], 0⟩ ⟨[], []⟩ false false 5 6 (some .models)
    (some .datasets) .copies 2

/-- C1 counterexample: with the graph store unreachable during
mirroring, `create` does not return the new edge id at this concrete
payload — the claim that the mirror error is caught at the coordinator
boundary fails. -/
theorem create_mirror_failure_cex :
    (ProvenanceHandler.create ⟨[], 0⟩ ⟨[], []⟩ true false 10 (some .datasets)
        20 (some .models) .derives 1).2.2 = .error .graphUnavailable := rfl

/-- C1 amended: if the graph store is unreachable during mirroring, the
relational relation row is still committed (the relational write is not
unwound) and a subsequent `retrieve` by the assigned id succeeds, and
the graph store is untouched — but the mirror error is not caught in
`create`: it propagates to the caller instead of the id being
returned. -/
theorem create_mirror_failure_amended (rdb : RelationalState) (g : GraphState)
    (left right : Int) (l r : ResourceType) (rel : RelationType) (uid : Int)
    (hfresh : rdb.fresh) :
    (ProvenanceHandler.create rdb g true false left (some l) right (some r)
        rel uid).2.2 = .error .graphUnavailable
    ∧ (ProvenanceHandler.create rdb g true false left (some l) right (some r)
        rel uid).1.rows
        = rdb.rows ++ [⟨rdb.nextId, left, l, right, r, rel, uid⟩]
    ∧ (ProvenanceHandler.create rdb g true false left (some l) right (some r)
        rel uid).2.1 = g
    ∧ ProvenanceHandler.retrieve
        (ProvenanceHandler.create rdb g true false left (some l) right (some r)
          rel uid).1 rdb.nextId
        = some ⟨rdb.nextId, left, l, right, r, rel, uid⟩ := by
  have hfil := filter_rid_append hfresh
    ⟨rdb.nextId, left, l, right, r, rel, uid⟩ rfl
  refine ⟨rfl, rfl, rfl, ?_⟩
  simp [ProvenanceHandler.retrieve, ProvenanceHandler.create, hfil]

/-- C1 witness: the amended statement at a concrete store and payload. -/
theorem create_mirror_failure_witness :
    (ProvenanceHandler.create ⟨[⟨0, 7, .workflows, 8, .artifacts, .glued, 4⟩],
        1⟩ ⟨[], []⟩ true false 10 (some .datasets) 20 (some .models) .derives
        1).2.2 = .error .graphUnavailable
    ∧ (ProvenanceHandler.create ⟨[⟨0, 7, .workflows, 8, .artifacts, .glued,
        4⟩], 1⟩ ⟨[], []⟩ true false 10 (some .datasets) 20 (some .models)
        .derives 1).1.rows
        = [⟨0, 7, .workflows, 8, .artifacts, .glued, 4⟩]
          ++ [⟨1, 10, .datasets, 20, .models, .derives, 1⟩]
    ∧ (ProvenanceHandler.create ⟨[⟨0, 7, .workflows, 8, .artifacts, .glued,
        4⟩], 1⟩ ⟨[], []⟩ true false 10 (some .datasets) 20 (some .models)
        .derives 1).2.1 = ⟨[], []⟩
    ∧ ProvenanceHandler.retrieve
        (ProvenanceHandler.create ⟨[⟨0, 7, .workflows, 8, .artifacts, .glued,
          4⟩], 1⟩ ⟨[], []⟩ true false 10 (some .datasets) 20 (some .models)
          .derives 1).1 1
        = some ⟨1, 10, .datasets, 20, .models, .derives, 1⟩ :=
  create_mirror_failure_amended ⟨[⟨0, 7, .workflows, 8, .artifacts, .glued,
    4⟩], 1⟩ ⟨[], []⟩ 10 20 .datasets .models .derives 1 (by decide)

/-- C2: an edge created via `create` (with its returned id) is removed
by `delete`: the relational row disappears, `retrieve` thereafter
returns `None`, `delete` returns `True`, and with mirroring enabled the
graph edge for the same key is removed by replaying the creation
payload. -/
theorem delete_symmetry (rdb : RelationalState) (g : GraphState)
    (enabled : Bool) (left right : Int) (l r : ResourceType)
    (rel : RelationType) (uid : Int) (hfresh : rdb.fresh) :
    (ProvenanceHandler.create rdb g enabled true left (some l) right (some r)
        rel uid).2.2 = .ok rdb.nextId
    ∧ (ProvenanceHandler.delete
        (ProvenanceHandler.create rdb g enabled true left (some l) right
          (some r) rel uid).1
        (ProvenanceHandler.create rdb g enabled true left (some l) right
          (some r) rel uid).2.1
        enabled true rdb.nextId).2.2 = .ok true
    ∧ (ProvenanceHandler.delete
        (ProvenanceHandler.create rdb g enabled true left (some l) right
          (some r) rel uid).1
        (ProvenanceHandler.create rdb g enabled true left (some l) right
          (some r) rel uid).2.1
        enabled true rdb.nextId).1.rows = rdb.rows
    ∧ ProvenanceHandler.retrieve
        (ProvenanceHandler.delete
          (ProvenanceHandler.create rdb g enabled true left (some l) right
            (some r) rel uid).1
          (ProvenanceHandler.create rdb g enabled true left (some l) right
            (some r) rel uid).2.1
          enabled true rdb.nextId).1 rdb.nextId = none
    ∧ (enabled = true →
        (ProvenanceHandler.delete
          (ProvenanceHandler.create rdb g enabled true left (some l) right
            (some r) rel uid).1
          (ProvenanceHandler.create rdb g enabled true left (some l) right
            (some r) rel uid).2.1
          enabled true rdb.nextId).2.1
          = ProvenanceHandler.delete_node_relationship
              (ProvenanceHandler.create rdb g enabled true left (some l) right
                (some r) rel uid).2.1
              ⟨rdb.nextId, left, l, right, r, rel, uid⟩
        ∧ edgeOf ⟨rdb.nextId, left, l, right, r, rel, uid⟩
            ∉ (ProvenanceHandler.delete
                (ProvenanceHandler.create rdb g enabled true left (some l)
                  right (some r) rel uid).1
                (ProvenanceHandler.create rdb g enabled true left (some l)
                  right (some r) rel uid).2.1
                enabled true rdb.nextId).2.1.edges) := by
  have hrow : (⟨rdb.nextId, left, l, right, r, rel, uid⟩ : RelationRow).rid
      = rdb.nextId := rfl
  have hfil := filter_rid_append hfresh
    ⟨rdb.nextId, left, l, right, r, rel, uid⟩ rfl
  have hfilne := filter_rid_ne_append hfresh
    ⟨rdb.nextId, left, l, right, r, rel, uid⟩ rfl
  have hnotmem : ∀ gd : GraphState,
      edgeOf ⟨rdb.nextId, left, l, right, r, rel, uid⟩
        ∉ (ProvenanceHandler.delete_node_relationship gd
            ⟨rdb.nextId, left, l, right, r, rel, uid⟩).edges := by
    intro gd hmem
    unfold ProvenanceHandler.delete_node_relationship at hmem
    simp only [List.mem_filter, decide_eq_true_eq] at hmem
    exact hmem.2 rfl
  cases enabled <;>
    · unfold ProvenanceHandler.create ProvenanceHandler.delete
        ProvenanceHandler.retrieve
      simp only [if_pos, if_neg, Bool.false_eq_true, ite_false, ite_true]
      rw [hfil, hfilne]
      simp_all [ProvenanceHandler.retrieve, filter_rid_eq_nil hfresh]

/-- C2 witness: create then delete at a concrete store, payload and
returned id, with mirroring enabled. -/
theorem delete_symmetry_witness :
    (ProvenanceHandler.create ⟨[], 0⟩ ⟨[], []⟩ true true 10 (some .datasets)
        20 (some .models) .derives 1).2.2 = .ok 0
    ∧ (ProvenanceHandler.delete
        (ProvenanceHandler.create ⟨[], 0⟩ ⟨[], []⟩ true true 10
          (some .datasets) 20 (some .models) .derives 1).1
        (ProvenanceHandler.create ⟨[], 0⟩ ⟨[], []⟩ true true 10
          (some .datasets) 20 (some .models) .derives 1).2.1
        true true 0).2.2 = .ok true
    ∧ (ProvenanceHandler.delete
        (ProvenanceHandler.create ⟨[], 0⟩ ⟨[], []⟩ true true 10
          (some .datasets) 20 (some .models) .derives 1).1
        (ProvenanceHandler.create ⟨[], 0⟩ ⟨[], []⟩ true true 10
          (some .datasets) 20 (some .models) .derives 1).2.1
        true true 0).1.rows = []
    ∧ ProvenanceHandler.retrieve
        (ProvenanceHandler.delete
          (ProvenanceHandler.create ⟨[], 0⟩ ⟨[], []⟩ true true 10
            (some .datasets) 20 (some .models) .derives 1).1
          (ProvenanceHandler.create ⟨[], 0⟩ ⟨[], []⟩ true true 10
            (some .datasets) 20 (some .models) .derives 1).2.1
          true true 0).1 0 = none
    ∧ (true = true →
        (ProvenanceHandler.delete
          (ProvenanceHandler.create ⟨[], 0⟩ ⟨[], []⟩ true true 10
            (some .datasets) 20 (some .models) .derives 1).1
          (ProvenanceHandler.create ⟨[], 0⟩ ⟨[], []⟩ true true 10
            (some .datasets) 20 (some .models) .derives 1).2.1
          true true 0).2.1
          = ProvenanceHandler.delete_node_relationship
              (ProvenanceHandler.create ⟨[], 0⟩ ⟨[], []⟩ true true 10
                (some .datasets) 20 (some .models) .derives 1).2.1
              ⟨0, 10, .datasets, 20, .models, .derives, 1⟩
        ∧ edgeOf ⟨0, 10, .datasets, 20, .models, .derives, 1⟩
            ∉ (ProvenanceHandler.delete
                (ProvenanceHandler.create ⟨[], 0⟩ ⟨[], []⟩ true true 10
                  (some .datasets) 20 (some .models) .derives 1).1
                (ProvenanceHandler.create ⟨[], 0⟩ ⟨[], []⟩ true true 10
                  (some .datasets) 20 (some .models) .derives 1).2.1
                true true 0).2.1.edges) :=
  delete_symmetry ⟨[], 0⟩ ⟨[], []⟩ true 10 20 .datasets .models .derives 1
    (by decide)

/-! ## Claims about the projects router -/

theorem create_asset_duplicate_of_exists (st : ProjectsState) (pid : Nat)
    (rt : ResourceType) (y : PathId)
    (h : ∃ a ∈ st.assets, a.project_id = pid ∧ a.resource_type = rt ∧
      a.resource_id = y.toStr) :
    create_asset st pid rt y = (st, .error .attributeError) := by
  obtain ⟨a, ha, h1, h2, h3⟩ := h
  have hmem : a ∈ st.assets.filter (fun b =>
      b.project_id = pid ∧ b.resource_id = y.toStr ∧ b.resource_type = rt) := by
    rw [List.mem_filter]
    refine ⟨ha, ?_⟩
    simp [h1, h2, h3]
  have hne : ¬((st.assets.filter (fun b =>
      b.project_id = pid ∧ b.resource_id = y.toStr ∧
        b.resource_type = rt)).length = 0) := by
    intro h0
    rw [List.length_eq_zero] at h0
    rw [h0] at hmem
    exact absurd hmem (List.not_mem_nil a)
  simp only [create_asset]
  rw [if_neg hne]

theorem create_asset_mem (st : ProjectsState) (pid : Nat) (rt : ResourceType)
    (x : PathId) :
    ∃ a ∈ (create_asset st pid rt x).1.assets,
      a.project_id = pid ∧ a.resource_type = rt ∧
        a.resource_id = x.toStr := by
  simp only [create_asset]
  split
  · exact ⟨⟨st.nextAssetId, pid, rt, x.toStr⟩, by simp, rfl, rfl, rfl⟩
  · rename_i hc
    have hne : st.assets.filter (fun b =>
        b.project_id = pid ∧ b.resource_id = x.toStr ∧
          b.resource_type = rt) ≠ [] := by
      intro h0
      rw [← List.length_eq_zero] at h0
      exact hc h0
    obtain ⟨a, hmem⟩ := List.exists_mem_of_ne_nil _ hne
    rw [List.mem_filter] at hmem
    obtain ⟨ha, hp⟩ := hmem
    simp only [decide_eq_true_eq] at hp
    exact ⟨a, ha, hp.1, hp.2.2, hp.2.1⟩

/-- C7: the pre-insert existence check does hold the at-most-one-row-
per-triple invariant and the duplicate attempt inserts nothing, but the
claim's "reports a conflict rather than raising" fails on the code: at
the failing input — project 5 already holding the (datasets, "7")
reference and the same triple posted again — the duplicate branch
raises `AttributeError` (`Response(status.HTTP_409_CONFLICT)` puts the
integer 409 in the response's content positional and `render` calls
`(409).encode`), leaving the state unchanged; no conflict response is
produced. -/
theorem create_asset_duplicate_raises :
    create_asset ⟨[], [⟨0, 5, .datasets, "7"⟩], 1⟩ 5 .datasets (.str "7")
      = (⟨[], [⟨0, 5, .datasets, "7"⟩], 1⟩, .error .attributeError)
    ∧ assetTriplesUnique ⟨[], [⟨0, 5, .datasets, "7"⟩], 1⟩
    ∧ assetTriplesUnique
        (create_asset ⟨[], [⟨0, 5, .datasets, "7"⟩], 1⟩ 5 .datasets
          (.str "7")).1 :=
  ⟨rfl, by decide, by decide⟩

/-- C9 counterexample: creating the asset with the integer `7` and then
with the string `"7"` does not yield a conflict report — the second
call raises `AttributeError` via `Response(409-as-content)` (while
indeed inserting no second row). -/
theorem asset_id_canonicalization_cex :
    create_asset (create_asset ⟨[], [], 0⟩ 5 .datasets (.int 7)).1
        5 .datasets (.str "7")
      = ((create_asset ⟨[], [], 0⟩ 5 .datasets (.int 7)).1,
          .error .attributeError) := rfl

/-- C9 amended: both asset endpoints coerce the `int | str` path
parameter with `str(...)`, so the integer `n` and the string `str(n)`
denote the same asset: `create_asset`/`delete_asset` behave identically
on the two forms, and creating with `n` then with `str(n)` inserts no
second row — though the duplicate attempt raises `AttributeError` (the
`Response(409-as-content)` slip, cf. C7) instead of reporting a
conflict. -/
theorem asset_id_canonicalization (st : ProjectsState) (project_id : Nat)
    (resource_type : ResourceType) (n : Int) :
    create_asset st project_id resource_type (.int n)
      = create_asset st project_id resource_type (.str (toString n))
    ∧ delete_asset st project_id resource_type (.int n)
      = delete_asset st project_id resource_type (.str (toString n))
    ∧ create_asset (create_asset st project_id resource_type (.int n)).1
          project_id resource_type (.str (toString n))
        = ((create_asset st project_id resource_type (.int n)).1,
            .error .attributeError) := by
  refine ⟨rfl, rfl, ?_⟩
  apply create_asset_duplicate_of_exists
  exact create_asset_mem st project_id resource_type (.int n)

/-- C8: `deactivate_project` on an existing id rewrites exactly the
matching project row with its `active` field set to `False` (every
other field and every other row written back unchanged), touches no
asset rows, and reports `{"id": id, "status": False}`; on a
non-existent id it raises not-found and modifies nothing. -/
theorem deactivate_project_frame (st : ProjectsState) (id : Nat)
    (hnodup : (st.projects.map (fun p => p.pid)).Nodup) :
    ((∃ p ∈ st.projects, p.pid = id) →
        (deactivate_project st id).1.projects
          = st.projects.map
              (fun q => if q.pid = id then { q with active := false } else q)
        ∧ (deactivate_project st id).2 = .ok (id, false))
    ∧ ((∀ p ∈ st.projects, p.pid ≠ id) →
        deactivate_project st id = (st, .error .notFound))
    ∧ (deactivate_project st id).1.assets = st.assets
    ∧ (deactivate_project st id).1.nextAssetId = st.nextAssetId := by
  unfold deactivate_project
  split
  · rename_i project hh
    have hmemf : project ∈ st.projects.filter (fun p => p.pid = id) :=
      List.mem_of_mem_head? (Option.mem_def.mpr hh)
    rw [List.mem_filter] at hmemf
    obtain ⟨hmem, hpid⟩ := hmemf
    simp only [decide_eq_true_eq] at hpid
    refine ⟨fun _ => ⟨?_, rfl⟩, fun habs => absurd hpid (habs project hmem),
      rfl, rfl⟩
    apply List.map_congr_left
    intro q hq
    by_cases hqid : q.pid = id
    · rw [if_pos hqid, if_pos hqid]
      have hqp : q = project :=
        List.inj_on_of_nodup_map hnodup hq hmem (by rw [hqid, hpid])
      rw [hqp]
    · rw [if_neg hqid, if_neg hqid]
  · rename_i hh
    rw [List.head?_eq_none_iff, List.filter_eq_nil_iff] at hh
    refine ⟨fun hex => ?_, fun _ => rfl, rfl, rfl⟩
    obtain ⟨p, hp, hpid⟩ := hex
    have := hh p hp
    simp only [decide_eq_true_eq] at this
    exact absurd hpid this

/-- C8 witness: deactivating project 1 in a two-project store flips only
its `active` flag; a missing id reports not-found. -/
theorem deactivate_project_frame_witness :
    ((∃ p ∈ ([⟨1, true, "a"⟩, ⟨2, true, "b"⟩] : List ProjectRow),
        p.pid = 1) →
      (deactivate_project ⟨[⟨1, true, "a"⟩, ⟨2, true, "b"⟩],
          [⟨0, 1, .models, "3"⟩], 1⟩ 1).1.projects
        = ([⟨1, true, "a"⟩, ⟨2, true, "b"⟩] : List ProjectRow).map
            (fun q => if q.pid = 1 then { q with active := false } else q)
      ∧ (deactivate_project ⟨[⟨1, true, "a"⟩, ⟨2, true, "b"⟩],
          [⟨0, 1, .models, "3"⟩], 1⟩ 1).2 = .ok (1, false))
    ∧ ((∀ p ∈ ([⟨1, true, "a"⟩, ⟨2, true, "b"⟩] : List ProjectRow),
          p.pid ≠ 1) →
        deactivate_project ⟨[⟨1, true, "a"⟩, ⟨2, true, "b"⟩],
            [⟨0, 1, .models, "3"⟩], 1⟩ 1
          = (⟨[⟨1, true, "a"⟩, ⟨2, true, "b"⟩], [⟨0, 1, .models, "3"⟩], 1⟩,
              .error .notFound))
    ∧ (deactivate_project ⟨[⟨1, true, "a"⟩, ⟨2, true, "b"⟩],
        [⟨0, 1, .models, "3"⟩], 1⟩ 1).1.assets = [⟨0, 1, .models, "3"⟩]
    ∧ (deactivate_project ⟨[⟨1, true, "a"⟩, ⟨2, true, "b"⟩],
        [⟨0, 1, .models, "3"⟩], 1⟩ 1).1.nextAssetId = 1 :=
  deactivate_project_frame ⟨[⟨1, true, "a"⟩, ⟨2, true, "b"⟩],
    [⟨0, 1, .models, "3"⟩], 1⟩ 1 (by decide)

theorem filter_key_mem_spec {α : Type} (k : α → String) (ids : List String)
    (ds : List α) (hids : ids.Nodup) (hdk : (ds.map k).Nodup)
    (hcov : ∀ s ∈ ids, s ∈ ds.map k) :
    (ds.filter (fun d => k d ∈ ids)).length = ids.length
    ∧ ∀ s, s ∈ (ds.filter (fun d => k d ∈ ids)).map k ↔ s ∈ ids := by
  have hmemiff : ∀ s, s ∈ (ds.filter (fun d => k d ∈ ids)).map k ↔ s ∈ ids := by
    intro s
    constructor
    · intro hs
      rw [List.mem_map] at hs
      obtain ⟨d, hd, hkd⟩ := hs
      rw [List.mem_filter] at hd
      have := hd.2
      simp only [decide_eq_true_eq] at this
      rw [← hkd]
      exact this
    · intro hs
      obtain ⟨d, hd, hkd⟩ := List.mem_map.mp (hcov s hs)
      rw [List.mem_map]
      refine ⟨d, ?_, hkd⟩
      rw [List.mem_filter]
      refine ⟨hd, ?_⟩
      simp only [decide_eq_true_eq]
      rw [hkd]
      exact hs
  have hsub : List.Sublist ((ds.filter (fun d => k d ∈ ids)).map k)
      (ds.map k) :=
    (List.filter_sublist ds).map k
  have hnod : ((ds.filter (fun d => k d ∈ ids)).map k).Nodup :=
    hdk.sublist hsub
  have hperm : List.Perm ((ds.filter (fun d => k d ∈ ids)).map k) ids :=
    (List.perm_ext_iff_of_nodup hnod hids).mpr hmemiff
  refine ⟨?_, hmemiff⟩
  have := hperm.length_eq
  rw [List.length_map] at this
  exact this

theorem ite_len_zero_map {α β : Type} (f : α → β) (l : List α) :
    (if l.length = 0 then [] else l.map f) = l.map f := by
  cases l <;> simp

theorem resolveType_spec (st : ProjectsState) (stores : ResourceStores)
    (id : Nat) (t : ResourceType)
    (href : (projectRefIds st id t).Nodup)
    (hes : t ∈ es_resources → ((stores.es t).map EsDoc.docId).Nodup ∧
      ∀ s ∈ projectRefIds st id t, s ∈ (stores.es t).map EsDoc.docId)
    (htab : t ∉ es_resources → ((stores.table t).map ResourceRow.resId).Nodup ∧
      ∀ s ∈ projectRefIds st id t,
        s ∈ (stores.table t).map ResourceRow.resId) :
    (resolveType st stores id t).length = (projectRefIds st id t).length
    ∧ ∀ s, s ∈ (resolveType st stores id t).map AssetRepr.resourceId
        ↔ s ∈ projectRefIds st id t := by
  unfold resolveType
  by_cases hmem : t ∈ es_resources
  · obtain ⟨hnod, hcov⟩ := hes hmem
    have h := filter_key_mem_spec EsDoc.docId (projectRefIds st id t)
      (stores.es t) href hnod hcov
    rw [if_pos hmem]
    simp only [ite_len_zero_map]
    have hcomp : AssetRepr.resourceId ∘ AssetRepr.fromIndex = EsDoc.docId :=
      funext fun d => rfl
    constructor
    · rw [List.length_map]
      exact h.1
    · intro s
      rw [List.map_map, hcomp]
      exact h.2 s
  · obtain ⟨hnod, hcov⟩ := htab hmem
    have h := filter_key_mem_spec ResourceRow.resId (projectRefIds st id t)
      (stores.table t) href hnod hcov
    rw [if_neg hmem]
    have hcomp : AssetRepr.resourceId ∘ AssetRepr.fromTable
        = ResourceRow.resId := funext fun d => rfl
    constructor
    · rw [List.length_map]
      exact h.1
    · intro s
      rw [List.map_map, hcomp]
      exact h.2 s

/-- C4: for an existing project and a duplicate-free requested type
list, `get_project_assets` returns one key per requested type in
request order; provided each referenced id of a requested type resolves
to exactly one document/row in its owning store, each key's sequence
has length equal to the number of that project's asset references of
that type (empty when none), and the union of returned resource ids
equals the set of referenced ids for the requested types. -/
theorem get_project_assets_complete (st : ProjectsState)
    (stores : ResourceStores) (id : Nat) (types : List ResourceType)
    (hproj : ∃ p ∈ st.projects, p.pid = id)
    (htypes : types.Nodup)
    (hrefs : ∀ t ∈ types, (projectRefIds st id t).Nodup)
    (hes : ∀ t ∈ types, t ∈ es_resources →
      ((stores.es t).map EsDoc.docId).Nodup ∧
      ∀ s ∈ projectRefIds st id t, s ∈ (stores.es t).map EsDoc.docId)
    (htab : ∀ t ∈ types, t ∉ es_resources →
      ((stores.table t).map ResourceRow.resId).Nodup ∧
      ∀ s ∈ projectRefIds st id t,
        s ∈ (stores.table t).map ResourceRow.resId) :
    get_project_assets st stores id types
      = .ok (types.map (fun t => (t, resolveType st stores id t)))
    ∧ (types.map (fun t => (t, resolveType st stores id t))).map Prod.fst
        = types
    ∧ (∀ t ∈ types, (resolveType st stores id t).length
        = (projectRefIds st id t).length)
    ∧ (∀ t ∈ types, ∀ s,
        s ∈ (resolveType st stores id t).map AssetRepr.resourceId
          ↔ s ∈ projectRefIds st id t)
    ∧ (∀ s, (∃ pr ∈ types.map (fun t => (t, resolveType st stores id t)),
          s ∈ pr.2.map AssetRepr.resourceId)
        ↔ ∃ t ∈ types, s ∈ projectRefIds st id t) := by
  have hany : st.projects.any (fun p => p.pid = id) = true := by
    rw [List.any_eq_true]
    obtain ⟨p, hp, hpid⟩ := hproj
    exact ⟨p, hp, by simp [hpid]⟩
  have hone : ∀ t ∈ types,
      (resolveType st stores id t).length = (projectRefIds st id t).length
      ∧ ∀ s, s ∈ (resolveType st stores id t).map AssetRepr.resourceId
          ↔ s ∈ projectRefIds st id t :=
    fun t ht => resolveType_spec st stores id t (hrefs t ht) (hes t ht)
      (htab t ht)
  refine ⟨?_, ?_, fun t ht => (hone t ht).1, fun t ht => (hone t ht).2, ?_⟩
  · simp only [get_project_assets]
    rw [if_pos hany]
  · rw [List.map_map]
    have hcomp : Prod.fst ∘ (fun t => (t, resolveType st stores id t))
        = (fun t => t) := funext fun t => rfl
    rw [hcomp, List.map_id']
  · intro s
    constructor
    · intro hex
      obtain ⟨pr, hpr, hs⟩ := hex
      obtain ⟨t, ht, hpt⟩ := List.mem_map.mp hpr
      refine ⟨t, ht, ?_⟩
      rw [← hpt] at hs
      exact ((hone t ht).2 s).mp hs
    · intro hex
      obtain ⟨t, ht, hs⟩ := hex
      refine ⟨(t, resolveType st stores id t), List.mem_map_of_mem _ ht, ?_⟩
      exact ((hone t ht).2 s).mpr hs

/-- C4 witness: project 5 with two dataset references and one
publication reference, requesting datasets, publications and models:
three keys come back, lengths 2, 1 and 0, and the returned ids equal
the referenced ids. -/
theorem get_project_assets_complete_witness :
    get_project_assets projDemoState projDemoStores 5
        [.datasets, .publications, .models]
      = .ok ([.datasets, .publications, .models].map
          (fun t => (t, resolveType projDemoState projDemoStores 5 t)))
    ∧ ([.datasets, .publications, .models].map
        (fun t => (t, resolveType projDemoState projDemoStores 5 t))).map
          Prod.fst = [.datasets, .publications, .models]
    ∧ (resolveType projDemoState projDemoStores 5 .datasets).length
        = (projectRefIds projDemoState 5 .datasets).length
    ∧ (resolveType projDemoState projDemoStores 5 .publications).length
        = (projectRefIds projDemoState 5 .publications).length
    ∧ (resolveType projDemoState projDemoStores 5 .models).length
        = (projectRefIds projDemoState 5 .models).length
    ∧ ("d1" ∈ (resolveType projDemoState projDemoStores 5 .datasets).map
          AssetRepr.resourceId
        ↔ "d1" ∈ projectRefIds projDemoState 5 .datasets) := by
  have h := get_project_assets_complete projDemoState projDemoStores 5
    [.datasets, .publications, .models] ⟨⟨5, true, "p"⟩, by decide, rfl⟩
    (by decide) (by decide) (by decide) (by decide)
  exact ⟨h.1, h.2.1, (h.2.2.1 .datasets (by simp)),
    (h.2.2.1 .publications (by simp)), (h.2.2.1 .models (by simp)),
    (h.2.2.2.1 .datasets (by simp) "d1")⟩

end TDS
